import Mathlib

/-!
Shallow embedding of the goth provider registry (src/provider.go) and proofs
of the specification claims about it.

Modelling choices:
- a Go `map[string]Provider` is embedded as a function `String → Option Provider`;
  a missing key reads as `none` (Go reads the zero value, which is `nil` for an
  interface type);
- the `Provider` interface is embedded as a record carrying the data the
  registry claims depend on: the string returned by `Name()` and an abstract
  `tag` distinguishing distinct instances that report the same name;
- the Go method `func (p Providers) Get(name string)` does NOT read its
  receiver: its body is `provider := providers[name]`, looking up the
  package-level variable `providers`.  The embedding therefore passes the
  current value of that package-level map as an explicit second argument
  `globalProviders`, keeping the receiver `p` as a (dead) first argument,
  exactly as in the source;
- the package-level variable `providers` is threaded through the package-level
  wrapper functions by explicit state passing: each wrapper takes the current
  value of the variable (and returns the new value where the Go code mutates it);
- a Go `*http.Client` is embedded as `Option HTTPClient`, with `none` for `nil`
  and a distinguished `HTTPClient.defaultClient` for `http.DefaultClient`.
-/

namespace Goth

/-- Embedding of the `Provider` interface restricted to the observations the
registry claims use: `name` is the value returned by `Name()`, and `tag` is an
abstract identity distinguishing different instances with the same name. -/
structure Provider where
  name : String
  tag  : Nat
deriving DecidableEq

/-- Embedding of `type Providers map[string]Provider`: a Go map from provider
name to provider, read as a total function yielding `none` on a missing key. -/
abbrev Providers := String → Option Provider

/-- Embedding of the empty map literal `Providers\x7b\x7d`. -/
def Providers.empty : Providers := fun _ => none

/-- Embedding of one Go map assignment `m[k] = v`. -/
def mapInsert (m : Providers) (k : String) (v : Provider) : Providers :=
  fun n => if n = k then some v else m n

/-- Embedding of `func (p Providers) Use(viders ...Provider)`: the loop
`for _, provider := range viders \x7b p[provider.Name()] = provider \x7d`,
returning the updated map. -/
def Providers.use (p : Providers) (viders : List Provider) : Providers :=
  viders.foldl (fun p provider => mapInsert p provider.name provider) p

/-- Embedding of `func (p Providers) Get(name string) (Provider, error)`.
The source body is `provider := providers[name]` followed by a nil check: it
looks up the package-level variable `providers`, not the receiver `p`, so the
embedding takes the current value of that variable as the explicit argument
`globalProviders` and leaves the receiver `p` unused, exactly as the source
does.  The Go pair `(Provider, error)` is embedded as
`Option Provider × Option String`. -/
def Providers.get (p : Providers) (globalProviders : Providers) (name : String) :
    Option Provider × Option String :=
  match globalProviders name with
  | none => (none, some ("no provider for " ++ name ++ " exists"))
  | some provider => (some provider, none)

/-- Embedding of `func (p *Providers) Clear() \x7b *p = Providers\x7b\x7d \x7d`:
state passing returns the new value of `*p`. -/
def Providers.clear (p : Providers) : Providers := Providers.empty

/-- Embedding of the initial value of the package-level variable
`var providers = Providers\x7b\x7d`. -/
def initialProviders : Providers := Providers.empty

/-- Embedding of `func UseProviders(viders ...Provider)`, which runs
`providers.Use(viders...)` on the package-level variable; the argument
`providers` is the current value of that variable and the result its new
value. -/
def UseProviders (providers : Providers) (viders : List Provider) : Providers :=
  Providers.use providers viders

/-- Embedding of `func GetProviders() Providers \x7b return providers \x7d`. -/
def GetProviders (providers : Providers) : Providers := providers

/-- Embedding of `func GetProvider(name string) (Provider, error)`, which runs
`providers.Get(name)` on the package-level variable: the receiver and the map
the body reads are both the package-level map. -/
def GetProvider (providers : Providers) (name : String) :
    Option Provider × Option String :=
  Providers.get providers providers name

/-- Embedding of `func ClearProviders() \x7b providers.Clear() \x7d`: the result
is the new value of the package-level variable. -/
def ClearProviders (providers : Providers) : Providers :=
  Providers.clear providers

/-- Embedding of `*http.Client` values relevant to the claims: `none` is the
nil pointer, `some defaultClient` is the shared `http.DefaultClient`, and
`some (custom k)` any other caller-supplied client. -/
inductive HTTPClient where
  | defaultClient : HTTPClient
  | custom : Nat → HTTPClient
deriving DecidableEq

/-- Embedding of `func HTTPClientWithFallBack(h *http.Client) *http.Client`:
`if h != nil \x7b return h \x7d; return http.DefaultClient`. -/
def HTTPClientWithFallBack (h : Option HTTPClient) : Option HTTPClient :=
  match h with
  | some _ => h
  | none => some HTTPClient.defaultClient

/-- Embedding of `const NoAuthUrlErrorMessage = "an AuthURL has not been set"`. -/
def NoAuthUrlErrorMessage : String := "an AuthURL has not been set"

/-! Helper lemmas about `Providers.use`. -/

theorem use_cons (p : Providers) (v : Provider) (vs : List Provider) :
    Providers.use p (v :: vs) = Providers.use (mapInsert p v.name v) vs := rfl

theorem use_append (p : Providers) (l₁ l₂ : List Provider) :
    Providers.use p (l₁ ++ l₂) = Providers.use (Providers.use p l₁) l₂ := by
  simp [Providers.use, List.foldl_append]

theorem use_frame_aux (vs : List Provider) (p : Providers) (n : String)
    (h : ∀ v ∈ vs, v.name ≠ n) :
    Providers.use p vs n = p n := by
  induction vs generalizing p with
  | nil => rfl
  | cons v vs ih =>
    have hv : v.name ≠ n := h v (List.mem_cons_self v vs)
    have hrest : ∀ w ∈ vs, w.name ≠ n := fun w hw => h w (List.mem_cons_of_mem v hw)
    rw [use_cons, ih (mapInsert p v.name v) hrest]
    have hn : ¬ n = v.name := fun hn => hv hn.symm
    simp [mapInsert, hn]

theorem use_indep_aux (vs : List Provider) (p q : Providers) (n : String)
    (h : ∃ v ∈ vs, v.name = n) :
    Providers.use p vs n = Providers.use q vs n := by
  induction vs generalizing p q with
  | nil =>
    rcases h with ⟨v, hv, _⟩
    exact absurd hv (List.not_mem_nil v)
  | cons v vs ih =>
    rw [use_cons, use_cons]
    by_cases hvs : ∃ w ∈ vs, w.name = n
    · exact ih _ _ hvs
    · have hall : ∀ w ∈ vs, w.name ≠ n := fun w hw hwn => hvs ⟨w, hw, hwn⟩
      rw [use_frame_aux vs (mapInsert p v.name v) n hall,
          use_frame_aux vs (mapInsert q v.name v) n hall]
      rcases h with ⟨w, hw, hwn⟩
      rcases List.mem_cons.mp hw with hwv | hwvs
      · subst hwv
        simp [mapInsert, ← hwn]
      · exact absurd hwn (hall w hwvs)

theorem use_use_self (p : Providers) (vs : List Provider) :
    Providers.use (Providers.use p vs) vs = Providers.use p vs := by
  funext n
  by_cases h : ∃ v ∈ vs, v.name = n
  · exact use_indep_aux vs (Providers.use p vs) p n h
  · have hall : ∀ v ∈ vs, v.name ≠ n := fun v hv hvn => h ⟨v, hv, hvn⟩
    rw [use_frame_aux vs (Providers.use p vs) n hall]

theorem use_last_wins_aux (p : Providers) (l₁ l₂ : List Provider) (b : Provider)
    (n : String) (hb : b.name = n) (h₂ : ∀ v ∈ l₂, v.name ≠ n) :
    Providers.use p (l₁ ++ b :: l₂) n = some b := by
  rw [use_append, use_cons, use_frame_aux l₂ (mapInsert (Providers.use p l₁) b.name b) n h₂]
  simp [mapInsert, ← hb]

/-! Claim theorems. -/

/-- C1: the claim fails on the code.  `Get` reads the package-level
`providers` map instead of its receiver, so on a local registry `p` holding a
provider named github (with the package-level registry empty), `p.Get("github")`
returns a nil provider and a not-found error instead of the registered
provider, even though `p` itself maps github to it. -/
theorem get_ignores_receiver_bug :
    (Providers.use Providers.empty [⟨"github", 1⟩]) "github" = some ⟨"github", 1⟩ ∧
    Providers.get (Providers.use Providers.empty [⟨"github", 1⟩]) Providers.empty "github"
      = (none, some "no provider for github exists") := ⟨rfl, rfl⟩

/-- C2: the package-level wrappers `UseProviders`, `GetProviders`,
`GetProvider` and `ClearProviders` coincide with the instance methods applied
to the single shared package-level registry, and the scenario holds: starting
from the initial registry, registering providers named github and google makes
`GetProviders` hold exactly those two keys, and after re-registering github
with a new instance, `GetProvider "github"` returns the new instance with no
error. -/
theorem package_wrappers_contract (g : Providers) (vs : List Provider) (n : String) :
    (UseProviders g vs = Providers.use g vs ∧
     GetProviders g = g ∧
     GetProvider g n = Providers.get g g n ∧
     ClearProviders g = Providers.clear g) ∧
    (∀ m, GetProviders (UseProviders initialProviders [⟨"github", 1⟩, ⟨"google", 2⟩]) m ≠ none
        ↔ m = "github" ∨ m = "google") ∧
    GetProvider (UseProviders (UseProviders initialProviders [⟨"github", 1⟩, ⟨"google", 2⟩])
        [⟨"github", 3⟩]) "github" = (some ⟨"github", 3⟩, none) := by
  refine ⟨⟨rfl, rfl, rfl, rfl⟩, ?_, rfl⟩
  intro m
  show (if m = "google" then some (⟨"google", 2⟩ : Provider)
        else if m = "github" then some ⟨"github", 1⟩ else none) ≠ none
      ↔ m = "github" ∨ m = "google"
  by_cases h1 : m = "google"
  · simp [h1]
  · by_cases h2 : m = "github"
    · simp [h1, h2]
    · simp [h1, h2]

/-- C3: the claim fails on the code.  After registering `a` and then `b` under
the same name via `Use`, the registry does hold exactly one entry under that
name and that entry is `b` (last-write-wins), but `Get` on that name returns a
not-found error rather than `b`, because `Get` reads the package-level map
(here empty) instead of its receiver. -/
theorem use_last_write_wins_get_bug :
    (∀ m, Providers.use (Providers.use Providers.empty [⟨"x", 1⟩]) [⟨"x", 2⟩] m
        = if m = "x" then some ⟨"x", 2⟩ else none) ∧
    Providers.get (Providers.use (Providers.use Providers.empty [⟨"x", 1⟩]) [⟨"x", 2⟩])
      Providers.empty "x" = (none, some "no provider for x exists") := by
  refine ⟨?_, rfl⟩
  intro m
  show (if m = "x" then some (⟨"x", 2⟩ : Provider)
        else if m = "x" then some ⟨"x", 1⟩ else none)
      = if m = "x" then some ⟨"x", 2⟩ else none
  by_cases h : m = "x" <;> simp [h]

/-- C4: the claim fails on the code.  After `p.Clear()` the receiver registry
is indeed empty, but `p.Get` reads the package-level map instead of the
receiver: with a provider named github still present in the package-level map,
`p.Get("github")` on the cleared registry succeeds and returns that provider
with no error, where the claim requires a not-found error for every name. -/
theorem clear_then_get_bug :
    (∀ m, Providers.clear (Providers.use Providers.empty [⟨"github", 1⟩]) m = none) ∧
    Providers.get (Providers.clear (Providers.use Providers.empty [⟨"github", 1⟩]))
      (Providers.use Providers.empty [⟨"github", 1⟩]) "github"
      = (some ⟨"github", 1⟩, none) := ⟨fun _ => rfl, rfl⟩

/-- C5: for every receiver `p`, every value `g` of the package-level map and
every name, `Get` never returns a nil provider together with a nil error: the
result is either a non-nil provider with a nil error, or a nil provider with a
not-found error whose message names the missing name. -/
theorem get_never_nil_nil (p g : Providers) (n : String) :
    (∃ v, Providers.get p g n = (some v, none)) ∨
    Providers.get p g n = (none, some ("no provider for " ++ n ++ " exists")) := by
  cases hg : g n with
  | none =>
    right
    simp [Providers.get, hg]
  | some v =>
    left
    exact ⟨v, by simp [Providers.get, hg]⟩

/-- C6: `Use` is idempotent — running the same list of providers through `Use`
twice leaves exactly the map produced by running it once — and within a single
call the last provider carrying a given name wins: if `b` is the last element
of the argument list whose name is `n`, the entry under `n` afterwards is `b`. -/
theorem use_idempotent_and_last_wins (p : Providers) (vs l₁ l₂ : List Provider)
    (b : Provider) (n : String) :
    Providers.use (Providers.use p vs) vs = Providers.use p vs ∧
    (b.name = n → (∀ v ∈ l₂, v.name ≠ n) →
      Providers.use p (l₁ ++ b :: l₂) n = some b) :=
  ⟨use_use_self p vs, fun hb h₂ => use_last_wins_aux p l₁ l₂ b n hb h₂⟩

/-- Witness for C6 at concrete inputs: idempotence of one `Use` call
registering two providers both named x, and the second of them winning. -/
theorem use_idempotent_and_last_wins_witness :
    Providers.use (Providers.use Providers.empty [⟨"x", 1⟩, ⟨"x", 2⟩]) [⟨"x", 1⟩, ⟨"x", 2⟩]
      = Providers.use Providers.empty [⟨"x", 1⟩, ⟨"x", 2⟩] ∧
    Providers.use Providers.empty ([⟨"x", 1⟩] ++ ⟨"x", 2⟩ :: []) "x" = some ⟨"x", 2⟩ :=
  ⟨(use_idempotent_and_last_wins Providers.empty [⟨"x", 1⟩, ⟨"x", 2⟩] [] [] ⟨"x", 2⟩ "x").1,
   (use_idempotent_and_last_wins Providers.empty [] [⟨"x", 1⟩] [] ⟨"x", 2⟩ "x").2
     rfl (by simp)⟩

/-- C7: `HTTPClientWithFallBack` returns the shared default client on a nil
argument and returns every non-nil argument unchanged; it is a pure total
function with no error case. -/
theorem httpClientWithFallBack_spec (c : HTTPClient) :
    HTTPClientWithFallBack none = some HTTPClient.defaultClient ∧
    HTTPClientWithFallBack (some c) = some c := ⟨rfl, rfl⟩

/-- C8: the constant `NoAuthUrlErrorMessage` is exactly the string
"an AuthURL has not been set". -/
theorem noAuthUrlErrorMessage_verbatim :
    NoAuthUrlErrorMessage = "an AuthURL has not been set" := rfl

/-- C10: `Use` changes only the entries keyed by the name of some provider in
its argument list; every other name reads exactly as before the call. -/
theorem use_frame (p : Providers) (vs : List Provider) (n : String)
    (h : ∀ v ∈ vs, v.name ≠ n) :
    Providers.use p vs n = p n :=
  use_frame_aux vs p n h

/-- Witness for C10 at concrete inputs: registering a provider named github
leaves the entry under google unchanged. -/
theorem use_frame_witness :
    (∀ v ∈ [(⟨"github", 1⟩ : Provider)], v.name ≠ "google") ∧
    Providers.use Providers.empty [⟨"github", 1⟩] "google" = Providers.empty "google" :=
  ⟨by decide, use_frame Providers.empty [⟨"github", 1⟩] "google" (by decide)⟩

end Goth
